import Mathlib

/-!
Shallow embedding of the desktop bootstrapper in `src-tauri/src/main.rs`
(the `start_server` Tauri command and its helpers).

The external world that `start_server` interacts with is abstracted into a
`LaunchEnv`: whether `std::env::current_exe()` succeeds, whether the
resolved parent directory exists, whether the entry-point file exists,
whether sidecar creation and process spawn succeed, the child's output
events, and the outcome of each HTTP readiness probe.  The embedding
replays the straight-line body of `start_server` over such an environment,
producing a result (`Outcome`) together with the ordered trace of
observable actions (process logging, window JS evaluation, sleeps, HTTP
probes, the spawn itself), and the trace of the concurrently spawned
output-monitoring task.
-/

namespace Hyperfy

/-- Outcome of a single `reqwest::get("http://localhost:3000")` call:
either a response arrived (with a success-range status flag, the
`response.status().is_success()` test) or a connection-level I/O error
occurred.  `errKind` distinguishes different I/O errors in the world,
which the code matches with a single `Err(_)` arm. -/
inductive ProbeOutcome where
  | response (isSuccess : Bool)
  | connectionError (errKind : Nat)
deriving DecidableEq, Repr

/-- An output event received from the sidecar's event channel
(`tauri::api::process::CommandEvent`).  `terminated` carries the debug
rendering of the termination payload; `other` stands for the remaining
`CommandEvent` variants, which the code ignores with a `_ => ()` arm. -/
inductive CommandEvent where
  | stdout (line : String)
  | stderr (line : String)
  | terminated (payloadRepr : String)
  | other
deriving DecidableEq, Repr

/-- An observable action performed by `start_server` or by its
monitoring task, in program order. -/
inductive Action where
  | println (s : String)
  | evalJs (s : String)
  | sleepSec (n : Nat)
  | httpGet (url : String) (attempt : Nat)
  | spawn (program : String) (args : List String) (envs : List (String × String))
deriving DecidableEq, Repr

/-- The external environment of one `start_server` invocation. -/
structure LaunchEnv where
  /-- `std::env::current_exe()`: `none` models the `Err` case. -/
  currentExe : Option String
  /-- `Path::parent`: `none` models a path with no parent. -/
  parentOf : String → Option String
  /-- `Path::exists` for the resolved entry-point path. -/
  fileExists : String → Bool
  /-- whether `Command::new_sidecar("node")` succeeds. -/
  sidecarOk : Bool
  /-- whether `command.spawn()` succeeds. -/
  spawnOk : Bool
  /-- the finite sequence of events the child emits on its channel. -/
  childEvents : List CommandEvent
  /-- outcome of the HTTP probe performed on attempt number `k`. -/
  probe : Nat → ProbeOutcome

/-- Result of `start_server`: `ok` is `Ok(())`, `err` is `Err(msg)`,
`panic` models an `unwrap`/`expect` abort (the function does not return). -/
inductive Outcome where
  | ok
  | err (msg : String)
  | panic (msg : String)
deriving DecidableEq, Repr

/-- `true` exactly on the `err` constructor: the result is an error
value returned to the caller. -/
def Outcome.isErrValue : Outcome → Bool
  | .err _ => true
  | _ => false

/-- `true` exactly on the `panic` constructor. -/
def Outcome.isPanic : Outcome → Bool
  | .panic _ => true
  | _ => false

/-- A complete run: the returned outcome, the calling task's action
trace, and the monitor task's trace (`none` when no monitor task was
spawned because the function bailed out first). -/
structure RunResult where
  outcome : Outcome
  trace : List Action
  monitor : Option (List Action)
deriving DecidableEq, Repr

/-- `current_exe().parent().join("resources").join("build").join("index.js")`. -/
def serverPathOf (parentDir : String) : String :=
  parentDir ++ "/resources/build/index.js"

/-- The `env_vars` map built on every invocation, in insertion order:
`NODE_ENV=production`, `PORT=3000`, `WORLD=world`, `PUBLIC_ASSETS_URL=`. -/
def env_vars : List (String × String) :=
  [("NODE_ENV", "production"), ("PORT", "3000"),
   ("WORLD", "world"), ("PUBLIC_ASSETS_URL", "")]

/-- Rust `Debug` rendering of a path, as produced by the `:?` format. -/
def quoteDebug (s : String) : String := "\"" ++ s ++ "\""

def startingMsg (path : String) : String :=
  "Starting server with path: " ++ quoteDebug path

def notFoundMsg (path : String) : String :=
  "Server file not found at: " ++ quoteDebug path

def unwrapPanicMsg : String := "called `Option::unwrap()` on a `None` value"

def sidecarPanicMsg : String := "failed to create `node` binary command"

def spawnPanicMsg : String := "Failed to spawn sidecar"

def spawnedMsg : String := "Node.js sidecar spawned successfully"

def respondingMsg : String := "Server is responding on port 3000"

/-- The every-5th-attempt progress line, with the attempt counter and
the fixed `max_attempts` of 30 interpolated. -/
def noteMsg (attempt : Nat) : String :=
  "Server process running, waiting for HTTP response... (attempt "
    ++ toString attempt ++ "/30)"

def timeoutMsg : String :=
  "Timeout reached, but Node.js process is still running. Proceeding anyway..."

def serverUrl : String := "http://localhost:3000"

def navigateJs : String := "window.location.href = 'http://localhost:3000'"

/-- Forwarding of one child event by the monitoring task: process-level
logging plus mirroring into the window console, exactly as in the
`match event` arms of the spawned async block. -/
def forwardEvent : CommandEvent → List Action
  | .stdout line =>
      [.println ("Node.js stdout: " ++ line),
       .evalJs ("console.log('Node.js: " ++ line ++ "')")]
  | .stderr line =>
      [.println ("Node.js stderr: " ++ line),
       .evalJs ("console.error('Node.js error: " ++ line ++ "')")]
  | .terminated r =>
      [.println ("Node.js process terminated: " ++ r),
       .evalJs ("console.error('Node.js terminated: " ++ r ++ "')")]
  | .other => []

/-- The monitoring task's whole trace: the `while let Some(event) =
rx.recv().await` loop forwards each received event in order until the
channel is exhausted. -/
def monitorTrace : List CommandEvent → List Action
  | [] => []
  | e :: rest => forwardEvent e ++ monitorTrace rest

/-- One step of the readiness loop body plus the remaining iterations.
`fuel` is `max_attempts - attempts`, so the `while attempts <
max_attempts` condition is `fuel > 0`; the body sleeps one second,
increments `attempts`, issues the GET, and dispatches on the result
exactly as the `match reqwest::get(...)` does.  Returns the final value
of `attempts` and the trace of the loop. -/
def probeLoopAux (probe : Nat → ProbeOutcome) : Nat → Nat → Nat × List Action
  | 0, attempts => (attempts, [])
  | fuel + 1, attempts =>
      let a := attempts + 1
      match probe a with
      | .response true =>
          (a, [.sleepSec 1, .httpGet serverUrl a, .println respondingMsg])
      | .response false =>
          let r := probeLoopAux probe fuel a
          (r.1, .sleepSec 1 :: .httpGet serverUrl a :: r.2)
      | .connectionError _ =>
          let r := probeLoopAux probe fuel a
          (r.1, .sleepSec 1 :: .httpGet serverUrl a ::
            ((if a % 5 == 0 then [.println (noteMsg a)] else []) ++ r.2))

/-- `max_attempts` in `start_server`. -/
def max_attempts : Nat := 30

/-- The whole readiness loop: `attempts` starts at 0, at most 30
iterations. -/
def probeLoop (probe : Nat → ProbeOutcome) : Nat × List Action :=
  probeLoopAux probe max_attempts 0

/-- The body of the `start_server` Tauri command, replayed over a
`LaunchEnv`. -/
def start_server (env : LaunchEnv) : RunResult :=
  match env.currentExe with
  | none => ⟨.panic unwrapPanicMsg, [], none⟩
  | some exe =>
    match env.parentOf exe with
    | none => ⟨.panic unwrapPanicMsg, [], none⟩
    | some dir =>
      let server_path := serverPathOf dir
      let tr0 := [Action.println (startingMsg server_path)]
      if env.fileExists server_path then
        if env.sidecarOk then
          if env.spawnOk then
            let tr1 := tr0 ++ [Action.spawn "node" [server_path] env_vars,
                               Action.println spawnedMsg]
            let lp := probeLoop env.probe
            let timeoutTr :=
              if max_attempts ≤ lp.1 then [Action.println timeoutMsg] else []
            ⟨.ok, tr1 ++ lp.2 ++ timeoutTr ++ [Action.evalJs navigateJs],
             some (monitorTrace env.childEvents)⟩
          else ⟨.panic spawnPanicMsg, tr0, none⟩
        else ⟨.panic sidecarPanicMsg, tr0, none⟩
      else ⟨.err (notFoundMsg server_path), tr0, none⟩

/-- `true` on probe outcomes that take the `Err(_)` arm. -/
def ProbeOutcome.isConnErr : ProbeOutcome → Bool
  | .connectionError _ => true
  | _ => false

/-- Two probe outcomes the code cannot tell apart: same constructor and,
for responses, the same success flag; connection errors of any kinds are
identified. -/
def sameClass : ProbeOutcome → ProbeOutcome → Bool
  | .response b, .response c => b == c
  | .connectionError _, .connectionError _ => true
  | _, _ => false

/-- `true` on `httpGet` actions. -/
def Action.isGet : Action → Bool
  | .httpGet _ _ => true
  | _ => false

/-- `true` on `sleepSec` actions. -/
def Action.isSleep : Action → Bool
  | .sleepSec _ => true
  | _ => false

/-- `true` on `spawn` actions. -/
def Action.isSpawn : Action → Bool
  | .spawn _ _ _ => true
  | _ => false

/-- Every `httpGet` in the trace is immediately preceded by a
one-second sleep. -/
def paced : List Action → Bool
  | [] => true
  | .sleepSec 1 :: .httpGet _ _ :: rest => paced rest
  | .httpGet _ _ :: _ => false
  | _ :: rest => paced rest

/-! ### Lemmas about the readiness-probe loop -/

/-- The final attempt counter never decreases. -/
theorem final_ge (probe : Nat → ProbeOutcome) :
    ∀ fuel a, a ≤ (probeLoopAux probe fuel a).1 := by
  intro fuel
  induction fuel with
  | zero => intro a; simp [probeLoopAux]
  | succ f ih =>
    intro a
    simp only [probeLoopAux]
    cases hp : probe (a + 1) with
    | response b =>
      cases b
      · exact Nat.le_trans (Nat.le_succ a) (ih (a + 1))
      · simp
    | connectionError e =>
      exact Nat.le_trans (Nat.le_succ a) (ih (a + 1))

/-- The final attempt counter is bounded by the fuel. -/
theorem final_le (probe : Nat → ProbeOutcome) :
    ∀ fuel a, (probeLoopAux probe fuel a).1 ≤ a + fuel := by
  intro fuel
  induction fuel with
  | zero => intro a; simp [probeLoopAux]
  | succ f ih =>
    intro a
    simp only [probeLoopAux]
    cases hp : probe (a + 1) with
    | response b =>
      cases b
      · exact Nat.le_trans (ih (a + 1)) (by omega)
      · simp
    | connectionError e =>
      exact Nat.le_trans (ih (a + 1)) (by omega)

/-- Each iteration contributes exactly one `httpGet` and one `sleepSec`:
both counts in the loop trace equal the number of attempts consumed. -/
theorem loop_counts (probe : Nat → ProbeOutcome) :
    ∀ fuel a,
      (probeLoopAux probe fuel a).2.countP Action.isGet + a
          = (probeLoopAux probe fuel a).1 ∧
      (probeLoopAux probe fuel a).2.countP Action.isSleep + a
          = (probeLoopAux probe fuel a).1 := by
  intro fuel
  induction fuel with
  | zero => intro a; simp [probeLoopAux]
  | succ f ih =>
    intro a
    simp only [probeLoopAux]
    cases hp : probe (a + 1) with
    | response b =>
      cases b
      · have h := ih (a + 1)
        simp [List.countP_cons, Action.isGet, Action.isSleep] <;> omega
      · simp [List.countP_cons, Action.isGet, Action.isSleep] <;> omega
    | connectionError e =>
      have h := ih (a + 1)
      by_cases h5 : (a + 1) % 5 = 0 <;>
        simp [List.countP_cons, List.countP_append, Action.isGet,
              Action.isSleep, h5] <;>
        omega

/-- The loop trace is paced: every `httpGet` is immediately preceded by
a one-second sleep. -/
theorem loop_paced (probe : Nat → ProbeOutcome) :
    ∀ fuel a, paced (probeLoopAux probe fuel a).2 = true := by
  intro fuel
  induction fuel with
  | zero => intro a; simp [probeLoopAux, paced]
  | succ f ih =>
    intro a
    simp only [probeLoopAux]
    cases hp : probe (a + 1) with
    | response b =>
      cases b
      · simpa [paced] using ih (a + 1)
      · simp [paced]
    | connectionError e =>
      by_cases h5 : (a + 1) % 5 = 0 <;>
        simpa [paced, h5] using ih (a + 1)

/-- The loop never spawns a process. -/
theorem spawn_not_mem_loop (probe : Nat → ProbeOutcome) :
    ∀ fuel a prog args es,
      Action.spawn prog args es ∉ (probeLoopAux probe fuel a).2 := by
  intro fuel
  induction fuel with
  | zero => intro a prog args es; simp [probeLoopAux]
  | succ f ih =>
    intro a prog args es
    simp only [probeLoopAux]
    cases hp : probe (a + 1) with
    | response b =>
      cases b
      · simpa using ih (a + 1) prog args es
      · simp
    | connectionError e =>
      by_cases h5 : (a + 1) % 5 = 0 <;>
        simpa [h5] using ih (a + 1) prog args es

/-- If no attempt in the window right after `a` gets a success-range
response, the loop consumes the whole window (as far as fuel allows). -/
theorem loop_reach (probe : Nat → ProbeOutcome) :
    ∀ fuel m a, (∀ j, a < j → j ≤ a + m → probe j ≠ .response true) →
      m ≤ fuel → a + m ≤ (probeLoopAux probe fuel a).1 := by
  intro fuel
  induction fuel with
  | zero =>
    intro m a hns hm
    have hm0 : m = 0 := Nat.le_zero.mp hm
    subst hm0
    simpa [probeLoopAux] using Nat.le_refl a
  | succ f ih =>
    intro m a hns hm
    cases m with
    | zero => simpa using final_ge probe (f + 1) a
    | succ m' =>
      have hstep : probe (a + 1) ≠ .response true := hns (a + 1) (by omega) (by omega)
      have hrec : a + 1 + m' ≤ (probeLoopAux probe f (a + 1)).1 :=
        ih m' (a + 1) (fun j h1 h2 => hns j (by omega) (by omega)) (by omega)
      simp only [probeLoopAux]
      cases hp : probe (a + 1) with
      | response b =>
        cases b
        · simp
          omega
        · exact absurd hp hstep
      | connectionError e =>
        by_cases h5 : (a + 1) % 5 = 0 <;> simp [h5] <;> omega

/-- A non-breaking attempt with fuel to spare means the next attempt is
also started (and hence counted), whatever its own outcome. -/
theorem loop_reach_strict (probe : Nat → ProbeOutcome) :
    ∀ fuel m a, (∀ j, a < j → j ≤ a + m → probe j ≠ .response true) →
      m < fuel → a + m + 1 ≤ (probeLoopAux probe fuel a).1 := by
  intro fuel
  induction fuel with
  | zero => intro m a hns hm; exact absurd hm (Nat.not_lt_zero m)
  | succ f ih =>
    intro m a hns hm
    cases m with
    | zero =>
      have hge := final_ge probe f (a + 1)
      simp only [probeLoopAux]
      cases hp : probe (a + 1) with
      | response b =>
        cases b
        · simp
          omega
        · simp
      | connectionError e =>
        by_cases h5 : (a + 1) % 5 = 0 <;> simp [h5] <;> omega
    | succ m' =>
      have hstep : probe (a + 1) ≠ .response true := hns (a + 1) (by omega) (by omega)
      have hrec : a + 1 + m' + 1 ≤ (probeLoopAux probe f (a + 1)).1 :=
        ih m' (a + 1) (fun j h1 h2 => hns j (by omega) (by omega)) (by omega)
      simp only [probeLoopAux]
      cases hp : probe (a + 1) with
      | response b =>
        cases b
        · simp
          omega
        · exact absurd hp hstep
      | connectionError e =>
        by_cases h5 : (a + 1) % 5 = 0 <;> simp [h5] <;> omega

/-- If the first success-range response after `a` arrives on attempt `k`
and the fuel reaches `k`, the loop stops at exactly `k` attempts and
logs the success line. -/
theorem loop_first_success (probe : Nat → ProbeOutcome) :
    ∀ fuel a k, a < k → k ≤ a + fuel → probe k = .response true →
      (∀ j, a < j → j < k → probe j ≠ .response true) →
      (probeLoopAux probe fuel a).1 = k ∧
        Action.println respondingMsg ∈ (probeLoopAux probe fuel a).2 := by
  intro fuel
  induction fuel with
  | zero =>
    intro a k h1 h2 hk hns
    exact absurd h1 (by omega)
  | succ f ih =>
    intro a k h1 h2 hk hns
    by_cases hka : k = a + 1
    · subst hka
      simp only [probeLoopAux]
      cases hp : probe (a + 1) with
      | response b =>
        cases b
        · rw [hp] at hk
          cases hk
        · simp
      | connectionError e =>
        rw [hp] at hk
        cases hk
    · have hk1 : a + 1 < k := by omega
      have hstep : probe (a + 1) ≠ .response true := hns (a + 1) (by omega) hk1
      have hrec := ih (a + 1) k hk1 (by omega) hk (fun j hj1 hj2 => hns j (by omega) hj2)
      simp only [probeLoopAux]
      cases hp : probe (a + 1) with
      | response b =>
        cases b
        · simp [hrec.1, hrec.2]
        · exact absurd hp hstep
      | connectionError e =>
        by_cases h5 : (a + 1) % 5 = 0 <;> simp [h5, hrec.1, hrec.2]

/-- The progress line embeds the attempt number, so distinct attempt
numbers within the 30-attempt budget give distinct lines. -/
theorem noteMsg_inj : ∀ j, j < 31 → ∀ k, k < 31 → noteMsg j = noteMsg k → j = k := by
  decide

/-- The success line never coincides with a progress line. -/
theorem respondingMsg_ne_note : ∀ k, k < 31 → respondingMsg ≠ noteMsg k := by
  decide

/-- Inside the loop, the progress line for attempt `k` appears in the
trace exactly when attempt `k` was consumed, its probe hit the
connection-error arm, and `k` is a multiple of 5. -/
theorem loop_note_iff (probe : Nat → ProbeOutcome) :
    ∀ fuel a, a + fuel ≤ 30 → ∀ k, k < 31 →
      (Action.println (noteMsg k) ∈ (probeLoopAux probe fuel a).2 ↔
        (a < k ∧ k ≤ (probeLoopAux probe fuel a).1 ∧
          (probe k).isConnErr = true ∧ k % 5 = 0)) := by
  intro fuel
  induction fuel with
  | zero =>
    intro a h30 k hk31
    simp [probeLoopAux]
    omega
  | succ f ih =>
    intro a h30 k hk31
    have hge := final_ge probe f (a + 1)
    have ihh := ih (a + 1) (by omega) k hk31
    simp only [probeLoopAux]
    cases hp : probe (a + 1) with
    | response b =>
      cases b
      · simp only [List.mem_cons, ihh]
        constructor
        · rintro (h | h | ⟨h1, h2, h3, h4⟩)
          · cases h
          · cases h
          · exact ⟨by omega, h2, h3, h4⟩
        · rintro ⟨h1, h2, h3, h4⟩
          refine Or.inr (Or.inr ⟨?_, h2, h3, h4⟩)
          rcases Nat.lt_or_ge (a + 1) k with h | h
          · exact h
          · have hk : k = a + 1 := by omega
            rw [hk, hp] at h3
            simp [ProbeOutcome.isConnErr] at h3
      · have hne : Action.println (noteMsg k) ≠ Action.println respondingMsg := by
          intro h
          exact respondingMsg_ne_note k hk31 (Action.println.inj h).symm
        simp only [List.mem_cons, List.mem_singleton]
        constructor
        · rintro (h | h | h)
          · cases h
          · cases h
          · simp at h
            exact absurd h (fun hh => respondingMsg_ne_note k hk31 hh.symm)
        · rintro ⟨h1, h2, h3, h4⟩
          have hk : k = a + 1 := by omega
          rw [hk, hp] at h3
          simp [ProbeOutcome.isConnErr] at h3
    | connectionError e =>
      have ha31 : a + 1 < 31 := by omega
      by_cases h5 : (a + 1) % 5 = 0
      · simp only [h5, if_pos, beq_self_eq_true, if_true, List.singleton_append,
                   List.mem_cons, ihh]
        constructor
        · rintro (h | h | h | ⟨h1, h2, h3, h4⟩)
          · cases h
          · cases h
          · have hk : k = a + 1 :=
              noteMsg_inj k hk31 (a + 1) ha31 (Action.println.inj h)
            subst hk
            exact ⟨by omega, by simpa using hge, by simp [hp, ProbeOutcome.isConnErr], h5⟩
          · exact ⟨by omega, h2, h3, h4⟩
        · rintro ⟨h1, h2, h3, h4⟩
          rcases Nat.lt_or_ge (a + 1) k with h | h
          · exact Or.inr (Or.inr (Or.inr ⟨h, h2, h3, h4⟩))
          · have hk : k = a + 1 := by omega
            subst hk
            exact Or.inr (Or.inr (Or.inl rfl))
      · have h5f : ((a + 1) % 5 == 0) = false := by
          simp [h5]
        simp only [h5f, Bool.false_eq_true, if_false, List.nil_append,
                   List.mem_cons, ihh]
        constructor
        · rintro (h | h | ⟨h1, h2, h3, h4⟩)
          · cases h
          · cases h
          · exact ⟨by omega, h2, h3, h4⟩
        · rintro ⟨h1, h2, h3, h4⟩
          rcases Nat.lt_or_ge (a + 1) k with h | h
          · exact Or.inr (Or.inr ⟨h, h2, h3, h4⟩)
          · have hk : k = a + 1 := by omega
            rw [hk] at h4
            exact absurd h4 h5

/-- The loop's behaviour is invariant under replacing the probe by one
the single `Err(_)` match arm cannot distinguish from it. -/
theorem loop_congr (p1 p2 : Nat → ProbeOutcome)
    (h : ∀ k, sameClass (p1 k) (p2 k) = true) :
    ∀ fuel a, probeLoopAux p1 fuel a = probeLoopAux p2 fuel a := by
  intro fuel
  induction fuel with
  | zero => intro a; rfl
  | succ f ih =>
    intro a
    have hc := h (a + 1)
    simp only [probeLoopAux]
    cases hp1 : p1 (a + 1) with
    | response b =>
      cases hp2 : p2 (a + 1) with
      | response c =>
        rw [hp1, hp2] at hc
        simp [sameClass] at hc
        subst hc
        cases b <;> simp [ih]
      | connectionError e2 =>
        rw [hp1, hp2] at hc
        simp [sameClass] at hc
    | connectionError e1 =>
      cases hp2 : p2 (a + 1) with
      | response c =>
        rw [hp1, hp2] at hc
        simp [sameClass] at hc
      | connectionError e2 =>
        simp [ih]

/-- Two appended strings differ whenever their left parts differ at
character index 8 (and both are long enough to have one). -/
theorem append_ne_of_get8 (p q a b : String)
    (hp : 8 < p.data.length) (hq : 8 < q.data.length)
    (hne : p.data[8]? ≠ q.data[8]?) : p ++ a ≠ q ++ b := by
  intro h
  apply hne
  have h2 := congrArg String.data h
  rw [String.data_append, String.data_append] at h2
  have e1 : (p.data ++ a.data)[8]? = p.data[8]? := List.getElem?_append_left hp
  have e2 : (q.data ++ b.data)[8]? = q.data[8]? := List.getElem?_append_left hq
  rw [← e1, ← e2, h2]

/-- The termination log line never coincides with a stdout log line,
whatever the forwarded payloads are. -/
theorem term_log_ne_stdout_log (r l : String) :
    "Node.js process terminated: " ++ r ≠ "Node.js stdout: " ++ l :=
  append_ne_of_get8 _ _ _ _ (by decide) (by decide) (by decide)

/-- The termination log line never coincides with a stderr log line. -/
theorem term_log_ne_stderr_log (r l : String) :
    "Node.js process terminated: " ++ r ≠ "Node.js stderr: " ++ l :=
  append_ne_of_get8 _ _ _ _ (by decide) (by decide) (by decide)

/-! ### Concrete environments used by the witnesses -/

/-- Probe behaviour: connection errors until a success on attempt 4. -/
def probeAt4 : Nat → ProbeOutcome :=
  fun k => if k = 4 then .response true else .connectionError 0

/-- Probe behaviour: the server never responds. -/
def probeNever : Nat → ProbeOutcome := fun _ => .connectionError 0

/-- Like `probeNever` but with a different I/O error kind. -/
def probeNever1 : Nat → ProbeOutcome := fun _ => .connectionError 1

/-- Probe behaviour: connection errors until a success on attempt 30. -/
def probeAt30 : Nat → ProbeOutcome :=
  fun k => if k = 30 then .response true else .connectionError 0

/-- Probe behaviour: immediate success. -/
def probeAt1 : Nat → ProbeOutcome := fun _ => .response true

/-- Probe behaviour: a non-success HTTP response on attempt 5, then a
success on attempt 7. -/
def probeMixed : Nat → ProbeOutcome :=
  fun k =>
    if k = 5 then .response false
    else if k = 7 then .response true
    else .connectionError 0

/-- A fully healthy launch environment with the given probe behaviour. -/
def goodEnv (probe : Nat → ProbeOutcome) : LaunchEnv where
  currentExe := some "/opt/hyperfy/hyperfy"
  parentOf := fun _ => some "/opt/hyperfy"
  fileExists := fun _ => true
  sidecarOk := true
  spawnOk := true
  childEvents := [.stdout "listening on 3000", .stderr "low memory",
                  .other, .terminated "code 0"]
  probe := probe

/-- Healthy environment except that the entry point is missing. -/
def missingEnv : LaunchEnv := { goodEnv probeAt1 with fileExists := fun _ => false }

/-- Environment where `current_exe()` fails. -/
def noExeEnv : LaunchEnv := { goodEnv probeAt1 with currentExe := none }

/-- Environment where the executable path has no parent. -/
def noParentEnv : LaunchEnv := { goodEnv probeAt1 with parentOf := fun _ => none }

/-- Environment where sidecar command creation fails. -/
def noSidecarEnv : LaunchEnv := { goodEnv probeAt1 with sidecarOk := false }

/-- Environment where the OS refuses to spawn the child. -/
def noSpawnEnv : LaunchEnv := { goodEnv probeAt1 with spawnOk := false }

/-! ### Claims -/

/-- C1: whenever the resolved entry-point path does not exist,
`start_server` returns the `ServerNotFoundError` message carrying the
attempted path, the trace contains no spawn, and no monitor task is
started. -/
theorem C1_missing_entry_no_spawn (env : LaunchEnv) (exe dir : String)
    (hexe : env.currentExe = some exe) (hdir : env.parentOf exe = some dir)
    (hmiss : env.fileExists (serverPathOf dir) = false) :
    (start_server env).outcome = .err (notFoundMsg (serverPathOf dir)) ∧
    (start_server env).trace.countP Action.isSpawn = 0 ∧
    (start_server env).monitor = none := by
  simp [start_server, hexe, hdir, hmiss, Action.isSpawn]

/-- C1 witness: a concrete environment whose entry point is absent. -/
theorem C1_witness :
    (start_server missingEnv).outcome
        = .err (notFoundMsg (serverPathOf "/opt/hyperfy")) ∧
    (start_server missingEnv).trace.countP Action.isSpawn = 0 ∧
    (start_server missingEnv).monitor = none :=
  C1_missing_entry_no_spawn missingEnv "/opt/hyperfy/hyperfy" "/opt/hyperfy"
    rfl rfl rfl

/-- C2: the probe loop makes at most 30 attempts, each attempt's GET is
immediately preceded by a one-second sleep (and the sleep and GET counts
agree), and if the first success-range response arrives on attempt
`k ≤ 30` the loop stops after exactly `k` attempts. -/
theorem C2_probe_pacing_and_stop (probe : Nat → ProbeOutcome) :
    ((probeLoop probe).2.countP Action.isGet ≤ 30 ∧
     (probeLoop probe).2.countP Action.isSleep
        = (probeLoop probe).2.countP Action.isGet ∧
     paced (probeLoop probe).2 = true) ∧
    (∀ k, k < 31 → 1 ≤ k → probe k = .response true →
      (∀ j, j < k → 1 ≤ j → probe j ≠ .response true) →
      (probeLoop probe).1 = k ∧
        (probeLoop probe).2.countP Action.isGet = k) := by
  have hm : max_attempts = 30 := rfl
  have hc := loop_counts probe max_attempts 0
  have hle := final_le probe max_attempts 0
  constructor
  · refine ⟨?_, ?_, loop_paced probe max_attempts 0⟩
    · simp only [probeLoop]
      omega
    · simp only [probeLoop]
      omega
  · intro k hk31 hk1 hk hns
    have hfs := loop_first_success probe max_attempts 0 k (by omega) (by omega)
      hk (fun j h1 h2 => hns j h2 h1)
    simp only [probeLoop]
    refine ⟨hfs.1, ?_⟩
    omega

/-- C2 witness: first success on attempt 4 stops the loop after exactly
4 attempts. -/
theorem C2_witness :
    (probeLoop probeAt4).1 = 4 ∧
      (probeLoop probeAt4).2.countP Action.isGet = 4 :=
  (C2_probe_pacing_and_stop probeAt4).2 4 (by decide) (by decide) (by decide)
    (by decide)

/-- C3: when the entry point exists and the spawn succeeds but no probe
attempt ever gets a success-range response, the loop exhausts all 30
attempts, `start_server` still returns `Ok`, the timeout warning is
logged, and the window is still told to navigate to the local URL. -/
theorem C3_exhaustion_still_ok (env : LaunchEnv) (exe dir : String)
    (hexe : env.currentExe = some exe) (hdir : env.parentOf exe = some dir)
    (hex : env.fileExists (serverPathOf dir) = true)
    (hside : env.sidecarOk = true) (hspawn : env.spawnOk = true)
    (hns : ∀ k, k < 31 → 1 ≤ k → env.probe k ≠ .response true) :
    (start_server env).outcome = .ok ∧
    Action.evalJs navigateJs ∈ (start_server env).trace ∧
    (probeLoop env.probe).1 = 30 ∧
    Action.println timeoutMsg ∈ (start_server env).trace := by
  have hm : max_attempts = 30 := rfl
  have h30 : (probeLoop env.probe).1 = 30 := by
    have hge := loop_reach env.probe max_attempts 30 0
      (fun j h1 h2 => hns j (by omega) (by omega)) (by omega)
    have hle := final_le env.probe max_attempts 0
    simp only [probeLoop]
    omega
  refine ⟨?_, ?_, h30, ?_⟩ <;>
    simp [start_server, hexe, hdir, hex, hside, hspawn, h30, max_attempts]

/-- C3 witness: a healthy launch whose server never answers. -/
theorem C3_witness :
    (start_server (goodEnv probeNever)).outcome = .ok ∧
    Action.evalJs navigateJs ∈ (start_server (goodEnv probeNever)).trace ∧
    (probeLoop (goodEnv probeNever).probe).1 = 30 ∧
    Action.println timeoutMsg ∈ (start_server (goodEnv probeNever)).trace :=
  C3_exhaustion_still_ok (goodEnv probeNever) "/opt/hyperfy/hyperfy"
    "/opt/hyperfy" rfl rfl rfl rfl rfl (by decide)

/-- C4 counterexample: when the current executable's location cannot be
determined, `start_server` aborts by panicking (`unwrap` on `Err`),
so `PathResolutionError` does not propagate to the caller as an error
value, contrary to the claim. -/
theorem C4_counterexample :
    (start_server noExeEnv).outcome.isErrValue = false ∧
    (start_server noExeEnv).outcome = .panic unwrapPanicMsg :=
  ⟨rfl, rfl⟩

/-- C4 (amended): all three failure kinds are terminal and none is
retried (at most one spawn per invocation), but only
`ServerNotFoundError` propagates to the caller as a descriptive error
value; path-resolution failures and spawn failures (sidecar creation
refused, or the OS refusing the process) abort via panic instead of
returning an error value. -/
theorem C4_amended_terminal_failures (env : LaunchEnv) :
    (env.currentExe = none →
      (start_server env).outcome = .panic unwrapPanicMsg) ∧
    (∀ exe, env.currentExe = some exe → env.parentOf exe = none →
      (start_server env).outcome = .panic unwrapPanicMsg) ∧
    (∀ exe dir, env.currentExe = some exe → env.parentOf exe = some dir →
      env.fileExists (serverPathOf dir) = false →
      (start_server env).outcome = .err (notFoundMsg (serverPathOf dir))) ∧
    (∀ exe dir, env.currentExe = some exe → env.parentOf exe = some dir →
      env.fileExists (serverPathOf dir) = true → env.sidecarOk = false →
      (start_server env).outcome = .panic sidecarPanicMsg) ∧
    (∀ exe dir, env.currentExe = some exe → env.parentOf exe = some dir →
      env.fileExists (serverPathOf dir) = true → env.sidecarOk = true →
      env.spawnOk = false →
      (start_server env).outcome = .panic spawnPanicMsg) ∧
    (start_server env).trace.countP Action.isSpawn ≤ 1 := by
  refine ⟨?_, ?_, ?_, ?_, ?_, ?_⟩
  · intro hexe
    simp [start_server, hexe]
  · intro exe hexe hdir
    simp [start_server, hexe, hdir]
  · intro exe dir hexe hdir hmiss
    simp [start_server, hexe, hdir, hmiss]
  · intro exe dir hexe hdir hex hside
    simp [start_server, hexe, hdir, hex, hside]
  · intro exe dir hexe hdir hex hside hspawn
    simp [start_server, hexe, hdir, hex, hside, hspawn]
  · rcases hexe : env.currentExe with _ | exe
    · simp [start_server, hexe]
    · rcases hdir : env.parentOf exe with _ | dir
      · simp [start_server, hexe, hdir]
      · have hloop : (probeLoop env.probe).2.countP Action.isSpawn = 0 :=
          List.countP_eq_zero.mpr (fun x hx => by
            cases x <;> simp [Action.isSpawn]
            exact spawn_not_mem_loop env.probe max_attempts 0 _ _ _ hx)
        cases hex : env.fileExists (serverPathOf dir)
        · simp [start_server, hexe, hdir, hex, Action.isSpawn]
        · cases hside : env.sidecarOk
          · simp [start_server, hexe, hdir, hex, hside, Action.isSpawn]
          · cases hspawn : env.spawnOk
            · simp [start_server, hexe, hdir, hex, hside, hspawn, Action.isSpawn]
            · simp [start_server, hexe, hdir, hex, hside, hspawn,
                    List.countP_cons, List.countP_append, Action.isSpawn,
                    probeLoop] at hloop ⊢
              exact hloop

/-- C4 witness: each terminal failure observed on a concrete
environment, plus the spawn bound on a healthy run. -/
theorem C4_witness :
    (start_server noExeEnv).outcome = .panic unwrapPanicMsg ∧
    (start_server noParentEnv).outcome = .panic unwrapPanicMsg ∧
    (start_server missingEnv).outcome
        = .err (notFoundMsg (serverPathOf "/opt/hyperfy")) ∧
    (start_server noSidecarEnv).outcome = .panic sidecarPanicMsg ∧
    (start_server noSpawnEnv).outcome = .panic spawnPanicMsg ∧
    (start_server (goodEnv probeAt1)).trace.countP Action.isSpawn ≤ 1 :=
  ⟨(C4_amended_terminal_failures noExeEnv).1 rfl,
   (C4_amended_terminal_failures noParentEnv).2.1 "/opt/hyperfy/hyperfy" rfl rfl,
   (C4_amended_terminal_failures missingEnv).2.2.1 "/opt/hyperfy/hyperfy"
     "/opt/hyperfy" rfl rfl rfl,
   (C4_amended_terminal_failures noSidecarEnv).2.2.2.1 "/opt/hyperfy/hyperfy"
     "/opt/hyperfy" rfl rfl rfl rfl,
   (C4_amended_terminal_failures noSpawnEnv).2.2.2.2.1 "/opt/hyperfy/hyperfy"
     "/opt/hyperfy" rfl rfl rfl rfl rfl,
   (C4_amended_terminal_failures (goodEnv probeAt1)).2.2.2.2.2⟩

/-- C5: the environment mapping is a fixed constant containing
`PORT=3000` and `NODE_ENV=production`, and every spawn performed by any
invocation of `start_server` passes exactly this mapping. -/
theorem C5_env_vars_fixed :
    (("PORT", "3000") ∈ env_vars ∧ ("NODE_ENV", "production") ∈ env_vars) ∧
    (∀ env prog args es,
      Action.spawn prog args es ∈ (start_server env).trace → es = env_vars) := by
  constructor
  · constructor <;> simp [env_vars]
  · intro env prog args es hmem
    rcases hexe : env.currentExe with _ | exe
    · simp [start_server, hexe] at hmem
    · rcases hdir : env.parentOf exe with _ | dir
      · simp [start_server, hexe, hdir] at hmem
      · cases hex : env.fileExists (serverPathOf dir)
        · simp [start_server, hexe, hdir, hex] at hmem
        · cases hside : env.sidecarOk
          · simp [start_server, hexe, hdir, hex, hside] at hmem
          · cases hspawn : env.spawnOk
            · simp [start_server, hexe, hdir, hex, hside, hspawn] at hmem
            · simp [start_server, hexe, hdir, hex, hside, hspawn,
                    List.mem_append, List.mem_cons] at hmem
              rcases hmem with ⟨h1, h2, h3⟩ | h
              · exact h3
              · exact absurd h
                  (spawn_not_mem_loop env.probe max_attempts 0 prog args es)

/-- C5 witness: the healthy fast-start run spawns with exactly the
fixed mapping. -/
theorem C5_witness : env_vars = env_vars ∧ ("PORT", "3000") ∈ env_vars :=
  ⟨(C5_env_vars_fixed).2 (goodEnv probeAt1) "node"
      [serverPathOf "/opt/hyperfy"] env_vars (by decide),
   (C5_env_vars_fixed).1.1⟩

/-- C6: on a successful spawn the monitor task's trace is exactly the
in-order concatenation of the individual forwards of the child's events,
until the event sequence is exhausted; stdout, stderr and termination
events each produce a non-empty forward, and the termination log line is
distinct from every stdout or stderr log line. -/
theorem C6_monitor_forwards (env : LaunchEnv) (exe dir : String)
    (hexe : env.currentExe = some exe) (hdir : env.parentOf exe = some dir)
    (hex : env.fileExists (serverPathOf dir) = true)
    (hside : env.sidecarOk = true) (hspawn : env.spawnOk = true) :
    (start_server env).monitor = some (monitorTrace env.childEvents) ∧
    (∀ evs1 evs2, monitorTrace (evs1 ++ evs2)
        = monitorTrace evs1 ++ monitorTrace evs2) ∧
    (∀ e, monitorTrace [e] = forwardEvent e) ∧
    (∀ line, forwardEvent (.stdout line) ≠ []) ∧
    (∀ line, forwardEvent (.stderr line) ≠ []) ∧
    (∀ r, forwardEvent (.terminated r) ≠ []) ∧
    (∀ r line,
      (forwardEvent (.terminated r)).head?
          ≠ (forwardEvent (.stdout line)).head? ∧
      (forwardEvent (.terminated r)).head?
          ≠ (forwardEvent (.stderr line)).head?) := by
  refine ⟨?_, ?_, ?_, ?_, ?_, ?_, ?_⟩
  · simp [start_server, hexe, hdir, hex, hside, hspawn]
  · intro evs1 evs2
    induction evs1 with
    | nil => simp [monitorTrace]
    | cons e rest ih => simp [monitorTrace, ih]
  · intro e
    simp [monitorTrace]
  · intro line
    simp [forwardEvent]
  · intro line
    simp [forwardEvent]
  · intro r
    simp [forwardEvent]
  · intro r line
    constructor
    · intro h
      simp [forwardEvent] at h
      exact term_log_ne_stdout_log r line h
    · intro h
      simp [forwardEvent] at h
      exact term_log_ne_stderr_log r line h

/-- C6 witness: the healthy environment with a sample event sequence. -/
theorem C6_witness :
    (start_server (goodEnv probeAt1)).monitor
        = some (monitorTrace (goodEnv probeAt1).childEvents) :=
  (C6_monitor_forwards (goodEnv probeAt1) "/opt/hyperfy/hyperfy" "/opt/hyperfy"
    rfl rfl rfl rfl rfl).1

/-- C7: a connection error still consumes its attempt; the progress note
for attempt `k` is in the loop trace exactly when attempt `k` was
consumed, hit the connection-error arm, and `k` is a multiple of 5; and
the loop cannot distinguish connection-error kinds: probes that agree up
to error kind give identical loops. -/
theorem C7_conn_error_notes (probe : Nat → ProbeOutcome) :
    (∀ k, k < 31 →
      (Action.println (noteMsg k) ∈ (probeLoop probe).2 ↔
        (1 ≤ k ∧ k ≤ (probeLoop probe).1 ∧
          (probe k).isConnErr = true ∧ k % 5 = 0))) ∧
    (∀ k e, k < 31 → 1 ≤ k → probe k = .connectionError e →
      (∀ j, j < k → 1 ≤ j → probe j ≠ .response true) →
      k ≤ (probeLoop probe).1) ∧
    (∀ probe2, (∀ k, sameClass (probe k) (probe2 k) = true) →
      probeLoop probe = probeLoop probe2) := by
  have hm : max_attempts = 30 := rfl
  refine ⟨?_, ?_, ?_⟩
  · intro k hk31
    have h := loop_note_iff probe max_attempts 0 (by omega) k hk31
    simpa [probeLoop, Nat.lt_iff_add_one_le] using h
  · intro k e hk31 hk1 hconn hns
    have hns' : ∀ j, 0 < j → j ≤ 0 + k → probe j ≠ .response true := by
      intro j h1 h2 hcontra
      rcases Nat.lt_or_ge j k with h | h
      · exact hns j h h1 hcontra
      · have hj : j = k := by omega
        rw [hj, hconn] at hcontra
        cases hcontra
    have h := loop_reach probe max_attempts k 0 hns' (by omega)
    simpa [probeLoop] using h
  · intro probe2 hsc
    simp [probeLoop, loop_congr probe probe2 hsc]

/-- C7 witness: with a never-responding server, attempt 5 is consumed,
its progress note is logged, and changing the I/O error kind changes
nothing. -/
theorem C7_witness :
    Action.println (noteMsg 5) ∈ (probeLoop probeNever).2 ∧
    5 ≤ (probeLoop probeNever).1 ∧
    probeLoop probeNever = probeLoop probeNever1 :=
  ⟨((C7_conn_error_notes probeNever).1 5 (by decide)).mpr (by decide),
   (C7_conn_error_notes probeNever).2.1 5 0 (by decide) (by decide)
     (by decide) (by decide),
   (C7_conn_error_notes probeNever).2.2 probeNever1 (fun _ => rfl)⟩

/-- C8: the post-loop timeout warning fires whenever the counter reaches
30, including the run whose first success-range response arrives exactly
on attempt 30: that run logs both the success line and the timeout
warning, and still returns `Ok`. -/
theorem C8_warning_on_success_at_30 (env : LaunchEnv) (exe dir : String)
    (hexe : env.currentExe = some exe) (hdir : env.parentOf exe = some dir)
    (hex : env.fileExists (serverPathOf dir) = true)
    (hside : env.sidecarOk = true) (hspawn : env.spawnOk = true)
    (h30 : env.probe 30 = .response true)
    (hns : ∀ j, j < 30 → 1 ≤ j → env.probe j ≠ .response true) :
    Action.println timeoutMsg ∈ (start_server env).trace ∧
    Action.println respondingMsg ∈ (start_server env).trace ∧
    (start_server env).outcome = .ok := by
  have hm : max_attempts = 30 := rfl
  have hfs := loop_first_success env.probe max_attempts 0 30 (by omega) (by omega)
    h30 (fun j h1 h2 => hns j h2 h1)
  rw [hm] at hfs
  refine ⟨?_, ?_, ?_⟩ <;>
    simp [start_server, hexe, hdir, hex, hside, hspawn, probeLoop,
          max_attempts, hfs.1, hfs.2]

/-- C8 witness: success exactly on attempt 30. -/
theorem C8_witness :
    Action.println timeoutMsg ∈ (start_server (goodEnv probeAt30)).trace ∧
    Action.println respondingMsg ∈ (start_server (goodEnv probeAt30)).trace ∧
    (start_server (goodEnv probeAt30)).outcome = .ok :=
  C8_warning_on_success_at_30 (goodEnv probeAt30) "/opt/hyperfy/hyperfy"
    "/opt/hyperfy" rfl rfl rfl rfl rfl (by decide) (by decide)

/-- C9: a non-success HTTP response consumes its attempt silently: the
loop neither stops (when budget remains, the next attempt is started)
nor logs the progress note for that attempt, even when its number is a
multiple of 5. -/
theorem C9_nonsuccess_response_silent (probe : Nat → ProbeOutcome) (k : Nat)
    (hk31 : k < 31) (hk1 : 1 ≤ k) (hfalse : probe k = .response false)
    (hns : ∀ j, j < k → 1 ≤ j → probe j ≠ .response true) :
    k ≤ (probeLoop probe).1 ∧
    (k < 30 → k + 1 ≤ (probeLoop probe).1) ∧
    Action.println (noteMsg k) ∉ (probeLoop probe).2 := by
  have hm : max_attempts = 30 := rfl
  have hns' : ∀ j, 0 < j → j ≤ 0 + k → probe j ≠ .response true := by
    intro j h1 h2 hcontra
    rcases Nat.lt_or_ge j k with h | h
    · exact hns j h h1 hcontra
    · have hj : j = k := by omega
      rw [hj, hfalse] at hcontra
      cases hcontra
  refine ⟨?_, ?_, ?_⟩
  · have h := loop_reach probe max_attempts k 0 hns' (by omega)
    simpa [probeLoop] using h
  · intro hk30
    have h := loop_reach_strict probe max_attempts k 0 hns' (by omega)
    simpa [probeLoop] using h
  · intro hmem
    have hiff := loop_note_iff probe max_attempts 0 (by omega) k hk31
    have h := (hiff.mp (by simpa [probeLoop] using hmem)).2.2.1
    rw [hfalse] at h
    simp [ProbeOutcome.isConnErr] at h

/-- C9 witness: a non-success response on attempt 5 (a multiple of 5)
in a run that first succeeds on attempt 7. -/
theorem C9_witness :
    5 ≤ (probeLoop probeMixed).1 ∧
    (5 < 30 → 5 + 1 ≤ (probeLoop probeMixed).1) ∧
    Action.println (noteMsg 5) ∉ (probeLoop probeMixed).2 :=
  C9_nonsuccess_response_silent probeMixed 5 (by decide) (by decide)
    (by decide) (by decide)

/-- C10: an error value returned by `start_server` can only be the
not-found message for the resolved entry-point path; whenever the entry
point exists and the run actually returns (no panic), the result is
`Ok`, whatever the probes or the child did. -/
theorem C10_err_only_not_found (env : LaunchEnv) :
    (∀ m, (start_server env).outcome = .err m →
      ∃ exe dir, env.currentExe = some exe ∧ env.parentOf exe = some dir ∧
        env.fileExists (serverPathOf dir) = false ∧
        m = notFoundMsg (serverPathOf dir)) ∧
    (∀ exe dir, env.currentExe = some exe → env.parentOf exe = some dir →
      env.fileExists (serverPathOf dir) = true →
      (start_server env).outcome.isPanic = false →
      (start_server env).outcome = .ok) := by
  constructor
  · intro m hm
    rcases hexe : env.currentExe with _ | exe
    · simp [start_server, hexe] at hm
    · rcases hdir : env.parentOf exe with _ | dir
      · simp [start_server, hexe, hdir] at hm
      · cases hex : env.fileExists (serverPathOf dir)
        · simp [start_server, hexe, hdir, hex] at hm
          exact ⟨exe, dir, rfl, hdir, hex, hm.symm⟩
        · cases hside : env.sidecarOk
          · simp [start_server, hexe, hdir, hex, hside] at hm
          · cases hspawn : env.spawnOk
            · simp [start_server, hexe, hdir, hex, hside, hspawn] at hm
            · simp [start_server, hexe, hdir, hex, hside, hspawn] at hm
  · intro exe dir hexe hdir hex hnp
    cases hside : env.sidecarOk
    · simp [start_server, hexe, hdir, hex, hside, Outcome.isPanic] at hnp
    · cases hspawn : env.spawnOk
      · simp [start_server, hexe, hdir, hex, hside, hspawn,
              Outcome.isPanic] at hnp
      · simp [start_server, hexe, hdir, hex, hside, hspawn]

/-- C10 witness: a healthy fast-starting run returns `Ok`. -/
theorem C10_witness : (start_server (goodEnv probeAt1)).outcome = .ok :=
  (C10_err_only_not_found (goodEnv probeAt1)).2 "/opt/hyperfy/hyperfy"
    "/opt/hyperfy" rfl rfl rfl (by decide)

end Hyperfy
